import Mathlib

/-!
Shallow embedding of the xray-logger repository (Python) in Lean 4.

Modelled modules:
* `src/sdk/step.py`   — payload summarization helpers (`infer_count`,
  `is_candidate_list`, `extract_candidate`, `_truncate_string`,
  `summarize_payload`).
* `src/sdk/transport.py` — the buffered transport's `send` / `start` state
  machine (queue contents, `maxsize`, `started` flag).
* `src/sdk/config.py` — the `XRayConfig` dataclass.
* `src/api/routes.py` — the `/ingest` batch loop and the four event handlers.
* `src/api/store.py` is not present in the tree; its operations are modelled
  from the specification (§4.5) and are marked as such below.

Python values are embedded as the inductive type `Value`.  Python `dict`s are
association lists with distinct keys in insertion order; `set`/`frozenset`
are lists of their distinct members in iteration order.  Python `float`
payloads are carried as an opaque integer token: no verified property depends
on float arithmetic, only on which dispatch branch a float takes.  Arbitrary
non-container Python objects are `Value.obj typename idAttr lenAttr`:
`idAttr` is `some s` when the object has an `id` attribute whose `str()` is
`s`, and `lenAttr` is `some n` when `len(obj)` succeeds returning `n`.
Operations that can raise in Python return `Except String`.
-/

set_option maxRecDepth 8000

namespace XRay

/-- Embedded Python values (see module docstring for conventions). -/
inductive Value where
  | none : Value
  | bool (b : Bool) : Value
  | int (n : Int) : Value
  | float (tok : Int) : Value
  | str (s : String) : Value
  | bytes (len : Nat) : Value
  | list (xs : List Value) : Value
  | tuple (xs : List Value) : Value
  | set (xs : List Value) : Value
  | frozenset (xs : List Value) : Value
  | dict (kvs : List (String × Value)) : Value
  | obj (typename : String) (idAttr : Option String) (lenAttr : Option Nat) : Value
deriving Repr

/-- Python `type(obj).__name__` for embedded values. -/
def typeName : Value → String
  | .none => "NoneType"
  | .bool _ => "bool"
  | .int _ => "int"
  | .float _ => "float"
  | .str _ => "str"
  | .bytes _ => "bytes"
  | .list _ => "list"
  | .tuple _ => "tuple"
  | .set _ => "set"
  | .frozenset _ => "frozenset"
  | .dict _ => "dict"
  | .obj t _ _ => t

/-- Summarization constants, from `src/sdk/step.py` lines 16-19. -/
def MAX_STRING_LENGTH : Nat := 1024

/-- Max keys to extract from dicts (`src/sdk/step.py` line 18). -/
def MAX_DICT_KEYS : Nat := 50

/-- Max recursion depth for nested structures (`src/sdk/step.py` line 19). -/
def MAX_PAYLOAD_DEPTH : Nat := 5

/-- Common ID field names to check (`src/sdk/step.py` line 22). -/
def ID_FIELDS : List String := ["id", "_id", "candidate_id", "item_id", "product_id", "doc_id"]

/-- Score field names tried by `extract_candidate` (`src/sdk/step.py` line 104). -/
def SCORE_FIELDS : List String := ["score", "rank", "relevance", "confidence", "weight"]

/-- Reason field names tried by `extract_candidate` (`src/sdk/step.py` line 110). -/
def REASON_FIELDS : List String := ["reason", "explanation", "rationale", "why", "filter_reason"]

/-- Collection keys recognized by `infer_count` (`src/sdk/step.py` line 43). -/
def COUNT_KEYS : List String := ["items", "results", "data", "records", "candidates"]

/-- Length of a value when it is a Python `list` or `tuple`, as tested by
`isinstance(obj[key], (list, tuple))` in `infer_count`. -/
def listLen? : Value → Option Nat
  | .list xs => some xs.length
  | .tuple xs => some xs.length
  | _ => Option.none

/-- The `for key in (...): if key in obj and isinstance(obj[key], (list, tuple))`
loop of `infer_count` (`src/sdk/step.py` lines 43-45), over an explicit key
list so that its behaviour can be stated for any prefix. -/
def firstCollectionLen (kvs : List (String × Value)) : List String → Option Nat
  | [] => Option.none
  | k :: ks =>
    match kvs.lookup k with
    | some v =>
      match listLen? v with
      | some n => some n
      | Option.none => firstCollectionLen kvs ks
    | Option.none => firstCollectionLen kvs ks

/-- `infer_count` from `src/sdk/step.py` lines 25-54.  The final
`hasattr(obj, "__len__") and not isinstance(obj, (str, bytes, dict))` fallback
is reached only by `Value.obj` (lists/tuples/sets already returned, and
str/bytes/dict are excluded); `lenAttr = none` covers both objects without
`__len__` and objects whose `len()` raises (caught by the source). -/
def infer_count : Value → Option Nat
  | .none => Option.none
  | .list xs => some xs.length
  | .tuple xs => some xs.length
  | .set xs => some xs.length
  | .frozenset xs => some xs.length
  | .dict kvs => firstCollectionLen kvs COUNT_KEYS
  | .str _ => Option.none
  | .bytes _ => Option.none
  | .bool _ => Option.none
  | .int _ => Option.none
  | .float _ => Option.none
  | .obj _ _ lenAttr => lenAttr

/-- One item check of the `is_candidate_list` loop: the item is a dict and
`any(field in item for field in ID_FIELDS)` holds (`src/sdk/step.py` 76-81). -/
def isCandidateDict : Value → Bool
  | .dict kvs => ID_FIELDS.any (fun f => (kvs.lookup f).isSome)
  | _ => false

/-- `is_candidate_list` from `src/sdk/step.py` lines 57-83: non-empty list or
tuple whose first `min(3, len)` items are dicts carrying an ID field. -/
def is_candidate_list : Value → Bool
  | .list xs => !xs.isEmpty && (xs.take 3).all isCandidateDict
  | .tuple xs => !xs.isEmpty && (xs.take 3).all isCandidateDict
  | _ => false

/-- Python membership `field in item` for a string field.  Dicts test key
presence, strings test substring occurrence, sequences and sets test element
equality; every other embedded value raises `TypeError`, exactly as
`"id" in 5` does in Python. -/
def py_contains (field : String) : Value → Except String Bool
  | .dict kvs => .ok (kvs.lookup field).isSome
  | .str s => .ok (decide (2 ≤ (s.splitOn field).length))
  | .list xs => .ok (xs.any fun x => match x with | .str t => t == field | _ => false)
  | .tuple xs => .ok (xs.any fun x => match x with | .str t => t == field | _ => false)
  | .set xs => .ok (xs.any fun x => match x with | .str t => t == field | _ => false)
  | .frozenset xs => .ok (xs.any fun x => match x with | .str t => t == field | _ => false)
  | v => .error ("TypeError: argument of type '" ++ typeName v ++ "' is not iterable")

/-- Python subscript `item[field]` for a string field: dict lookup; any other
embedded value raises `TypeError` (e.g. string indices must be integers). -/
def py_getitem (item : Value) (field : String) : Except String Value :=
  match item with
  | .dict kvs =>
    match kvs.lookup field with
    | some v => .ok v
    | Option.none => .error ("KeyError: " ++ field)
  | v => .error ("TypeError: '" ++ typeName v ++ "' indices must be integers")

/-- One `for field in FIELDS: if field in item: take item[field]; break` loop
of `extract_candidate` (`src/sdk/step.py` lines 98-113).  Membership errors
propagate, as they do in Python. -/
def find_first_field (item : Value) : List String → Except String (Option Value)
  | [] => .ok Option.none
  | f :: fs => do
    let b ← py_contains f item
    if b then do
      let v ← py_getitem item f
      pure (some v)
    else
      find_first_field item fs

/-- `extract_candidate` from `src/sdk/step.py` lines 86-119: first-found id,
score and reason fields, with a missing reason recorded as `None`.  The
result dict has insertion order id, score, reason. -/
def extract_candidate (item : Value) : Except String (List (String × Value)) := do
  let idv ← find_first_field item ID_FIELDS
  let scorev ← find_first_field item SCORE_FIELDS
  let reasonv ← find_first_field item REASON_FIELDS
  pure ((match idv with | some v => [("id", v)] | Option.none => []) ++
        (match scorev with | some v => [("score", v)] | Option.none => []) ++
        [("reason", reasonv.getD Value.none)])

/-- `_truncate_string` from `src/sdk/step.py` lines 122-126. -/
def truncate_string (s : String) : String :=
  if s.length ≤ MAX_STRING_LENGTH then s else s.take MAX_STRING_LENGTH ++ "..."

/-- Scalar handling for one dict value in the dict branch of
`summarize_payload` (`src/sdk/step.py` lines 207-219). -/
def dictValueSummary : Value → Value
  | .none => .none
  | .bool b => .bool b
  | .int n => .int n
  | .float t => .float t
  | .str s => .str (truncate_string s)
  | v => .dict [("_type", .str (typeName v))]

/-- Non-candidate list/tuple/set branch of `summarize_payload`
(`src/sdk/step.py` lines 182-192). -/
def seqSummary (tn : String) (xs : List Value) : Value :=
  match xs with
  | [] => .dict [("_type", .str tn), ("_count", .int 0)]
  | x :: _ => .dict [("_type", .str tn), ("_count", .int xs.length),
                     ("_item_type", .str (typeName x))]

/-- Dict branch of `summarize_payload` (`src/sdk/step.py` lines 195-221):
first 50 keys, total key count, `_keys_truncated` flag, scalar values. -/
def dictSummary (kvs : List (String × Value)) : Value :=
  let keys := (kvs.map Prod.fst).take MAX_DICT_KEYS
  let base := [("_type", Value.str "dict"),
               ("_key_count", Value.int kvs.length),
               ("_keys", Value.list (keys.map Value.str))]
  let flagged := if kvs.length > MAX_DICT_KEYS
                 then base ++ [("_keys_truncated", Value.bool true)]
                 else base
  let values := (kvs.take MAX_DICT_KEYS).map fun kv => (kv.1, dictValueSummary kv.2)
  .dict (flagged ++ [("_values", Value.dict values)])

/-- Candidate-list branch of `summarize_payload` (`src/sdk/step.py` lines
172-179): `extract_candidate` applied to every element; any `TypeError`
raised by an element propagates. -/
def summarize_candidates (xs : List Value) : Except String Value := do
  let cs ← xs.mapM extract_candidate
  pure (.dict [("_type", .str "candidates"),
               ("_count", .int xs.length),
               ("_candidates", .list (cs.map Value.dict))])

/-- `summarize_payload` from `src/sdk/step.py` lines 129-234.  Branches in
source order: depth cutoff, None, bool, numbers, str, bytes, candidate list,
other sequences/sets, dict, other objects.  The function is not recursive in
the source; `depth` only matters at the top.  `Except` carries the
`TypeError` that `extract_candidate` can raise on non-dict elements. -/
def summarize_payload (obj : Value) (depth : Nat := 0) : Except String Value :=
  if depth ≥ MAX_PAYLOAD_DEPTH then
    .ok (.dict [("_type", .str (typeName obj)), ("_truncated", .bool true)])
  else
    match obj with
    | .none => .ok (.dict [("_type", .str "null"), ("_value", .none)])
    | .bool b => .ok (.dict [("_type", .str "bool"), ("_value", .bool b)])
    | .int n => .ok (.dict [("_type", .str "int"), ("_value", .int n)])
    | .float t => .ok (.dict [("_type", .str "float"), ("_value", .float t)])
    | .str s => .ok (.dict [("_type", .str "str"),
                            ("_length", .int s.length),
                            ("_value", .str (truncate_string s)),
                            ("_truncated", .bool (s.length > MAX_STRING_LENGTH))])
    | .bytes n => .ok (.dict [("_type", .str "bytes"), ("_length", .int n)])
    | .list xs =>
      if is_candidate_list (.list xs) then summarize_candidates xs
      else .ok (seqSummary "list" xs)
    | .tuple xs =>
      if is_candidate_list (.tuple xs) then summarize_candidates xs
      else .ok (seqSummary "tuple" xs)
    | .set xs => .ok (seqSummary "set" xs)
    | .frozenset xs => .ok (seqSummary "frozenset" xs)
    | .dict kvs => .ok (dictSummary kvs)
    | .obj tn idAttr _ =>
      .ok (.dict ([("_type", Value.str tn)] ++
                  (match idAttr with
                   | some s => [("_id", Value.str s)]
                   | Option.none => [])))

/-- Detail level enum from `src/shared/types.py`. -/
inductive DetailLevel where
  | summary : DetailLevel
  | full : DetailLevel
deriving DecidableEq, Repr

/-- The `XRayConfig` dataclass from `src/sdk/config.py` lines 21-37, with its
declared fields and defaults.  `flush_interval` (a Python float) is carried as
an exact rational. -/
structure XRayConfig where
  base_url : Option String := Option.none
  api_key : Option String := Option.none
  buffer_size : Nat := 1000
  flush_interval : Rat := 5
  default_detail : DetailLevel := DetailLevel.summary

/-- Attribute names of the `XRayConfig` dataclass, transcribed from
`src/sdk/config.py` lines 33-37 (the complete list of declared fields). -/
def xrayConfigFields : List String :=
  ["base_url", "api_key", "buffer_size", "flush_interval", "default_detail"]

/-- Config attributes read by `Transport.__init__`
(`src/sdk/transport.py` lines 24-33: `config.buffer_size`, `config.batch_size`). -/
def transportInitConfigReads : List String := ["buffer_size", "batch_size"]

/-- Config attributes read by `Transport.start` and its `_get_headers` helper
(`src/sdk/transport.py` lines 45-59 and 178-183). -/
def transportStartConfigReads : List String := ["base_url", "api_key", "http_timeout"]

/-- Transport state: the bounded FIFO queue (an `asyncio.Queue` with
`maxsize = buffer_size`), and the `_started` flag
(`src/sdk/transport.py` lines 24-33). -/
structure TransportState where
  queue : List Value := []
  maxsize : Nat
  started : Bool := false

namespace TransportState

/-- `asyncio.Queue.full()`: a queue with `maxsize <= 0` is never full,
otherwise it is full when `qsize() >= maxsize`. -/
def queueFull (s : TransportState) : Bool :=
  0 < s.maxsize && s.maxsize ≤ s.queue.length

/-- `Transport.start` (`src/sdk/transport.py` lines 45-59): a no-op when
already started, otherwise marks the transport started (the background worker
it spawns consumes nothing until the event loop runs it). -/
def start (s : TransportState) : TransportState :=
  if s.started then s else { s with started := true }

/-- `Transport.send` (`src/sdk/transport.py` lines 62-80): drop when not
started; `put_nowait`, dropping on `QueueFull`; return whether the event was
queued. -/
def send (s : TransportState) (event : Value) : Bool × TransportState :=
  if !s.started then (false, s)
  else if s.queueFull then (false, s)
  else (true, { s with queue := s.queue ++ [event] })

end TransportState

/-- Key lookup inside a summary dict value (helper for stating theorems). -/
def getKey (v : Value) (k : String) : Option Value :=
  match v with
  | .dict kvs => kvs.lookup k
  | _ => Option.none

/-- Whether an `Except` result is a success (helper for stating theorems). -/
def isOkE {ε α : Type} : Except ε α → Bool
  | .ok _ => true
  | .error _ => false

/-- The four ingest event kinds of `src/api/schemas.py` (discriminated union
on `event_type`).  Identifiers and timestamps are carried as strings;
`payloads` is the parsed `_payloads` map (empty list for absent/empty, which
are equivalent under the `if event.payloads:` truthiness tests in
`src/api/routes.py`). -/
inductive Event where
  | run_start (id pipeline_name status started_at : String)
      (input_summary metadata : Option Value)
      (request_id user_id environment : Option String)
      (payloads : List (String × Value))
  | run_end (id status ended_at : String)
      (output_summary : Option Value) (error_message : Option String)
      (payloads : List (String × Value))
  | step_start (id run_id step_name step_type : String) (index : Nat)
      (started_at : String) (input_summary : Option Value)
      (input_count : Option Nat) (metadata : Option Value)
      (payloads : List (String × Value))
  | step_end (id run_id status ended_at : String) (duration_ms : Option Nat)
      (output_summary : Option Value) (output_count : Option Nat)
      (reasoning : Option Value) (error_message : Option String)
      (payloads : List (String × Value))

namespace Event

/-- The `id` field common to all four event kinds. -/
def eid : Event → String
  | .run_start id _ _ _ _ _ _ _ _ _ => id
  | .run_end id _ _ _ _ _ => id
  | .step_start id _ _ _ _ _ _ _ _ _ => id
  | .step_end id _ _ _ _ _ _ _ _ _ => id

/-- The `event_type` discriminator of each event kind. -/
def etype : Event → String
  | .run_start _ _ _ _ _ _ _ _ _ _ => "run_start"
  | .run_end _ _ _ _ _ _ => "run_end"
  | .step_start _ _ _ _ _ _ _ _ _ _ => "step_start"
  | .step_end _ _ _ _ _ _ _ _ _ _ => "step_end"

end Event

/-- A stored Run row (`runs` table, spec §6 Persisted state). -/
structure RunRow where
  id : String
  pipeline_name : String
  status : String
  started_at : String
  ended_at : Option String := Option.none
  input_summary : Option Value := Option.none
  output_summary : Option Value := Option.none
  metadata : Option Value := Option.none
  request_id : Option String := Option.none
  user_id : Option String := Option.none
  environment : Option String := Option.none
  error_message : Option String := Option.none

/-- A stored Step row (`steps` table, spec §6 Persisted state). -/
structure StepRow where
  id : String
  run_id : String
  step_name : String
  step_type : String
  index : Nat
  started_at : String
  ended_at : Option String := Option.none
  duration_ms : Option Nat := Option.none
  status : String
  input_summary : Option Value := Option.none
  input_count : Option Nat := Option.none
  output_summary : Option Value := Option.none
  output_count : Option Nat := Option.none
  reasoning : Option Value := Option.none
  metadata : Option Value := Option.none
  error_message : Option String := Option.none

/-- A stored payload row (`payloads` table): owning run, optional owning
step, phase, client-assigned ref_id and the JSON body. -/
structure PayloadRow where
  run_id : String
  step_id : Option String
  phase : String
  ref_id : String
  body : Value

/-- Database state reached through the store operations. -/
structure Store where
  runs : List RunRow := []
  steps : List StepRow := []
  payloads : List PayloadRow := []

namespace Store

/-- Modelled from the spec: `store.create_run` of the absent `src/api/store.py`
(§4.5) — insert a new Run row; on a duplicate id the reference implementation
fails with a conflict. -/
def create_run (s : Store) (row : RunRow) : Except String Store :=
  if s.runs.any (fun r => r.id == row.id) then
    .error ("Run " ++ row.id ++ " already exists")
  else
    .ok { s with runs := s.runs ++ [row] }

/-- Modelled from the spec: `store.end_run` of the absent `src/api/store.py`
(§4.5) — update the Run atomically; `none` when no row with the id exists. -/
def end_run (s : Store) (id status ended_at : String)
    (output_summary : Option Value) (error_message : Option String) :
    Option (RunRow × Store) :=
  match s.runs.find? (fun r => r.id == id) with
  | Option.none => Option.none
  | some row =>
    let row' := { row with status := status, ended_at := some ended_at,
                           output_summary := output_summary,
                           error_message := error_message }
    some (row', { s with runs := s.runs.map fun r => if r.id == id then row' else r })

/-- Modelled from the spec: `store.create_step` of the absent
`src/api/store.py` (§4.5) — insert a Step row; the parent Run foreign key
must exist, otherwise the database raises and the event is reported failed. -/
def create_step (s : Store) (row : StepRow) : Except String Store :=
  if !s.runs.any (fun r => r.id == row.run_id) then
    .error ("FOREIGN KEY constraint failed: run " ++ row.run_id)
  else if s.steps.any (fun t => t.id == row.id) then
    .error ("Step " ++ row.id ++ " already exists")
  else
    .ok { s with steps := s.steps ++ [row] }

/-- Modelled from the spec: `store.end_step` of the absent `src/api/store.py`
(§4.5) — update the Step; `none` when missing; on success returns the row
with its authoritative `run_id`. -/
def end_step (s : Store) (id status ended_at : String)
    (duration_ms : Option Nat) (output_summary : Option Value)
    (output_count : Option Nat) (reasoning : Option Value)
    (error_message : Option String) : Option (StepRow × Store) :=
  match s.steps.find? (fun t => t.id == id) with
  | Option.none => Option.none
  | some row =>
    let row' := { row with status := status, ended_at := some ended_at,
                           duration_ms := duration_ms,
                           output_summary := output_summary,
                           output_count := output_count,
                           reasoning := reasoning,
                           error_message := error_message }
    some (row', { s with steps := s.steps.map fun t => if t.id == id then row' else t })

/-- Modelled from the spec: `store.create_payloads` of the absent
`src/api/store.py` (§4.5) — insert one row per `(ref_id, body)` entry with
the given owner and phase; failures here are logged by the callers and never
propagate, so the operation is total. -/
def create_payloads (s : Store) (run_id : String) (step_id : Option String)
    (phase : String) (payloads : List (String × Value)) : Store :=
  { s with payloads := s.payloads ++
      payloads.map fun p => ⟨run_id, step_id, phase, p.1, p.2⟩ }

end Store

/-- `_handle_run_start` from `src/api/routes.py` lines 109-141: create the
Run, then store run-level payloads with `step_id = None` and phase `input`. -/
def handle_run_start (s : Store) (id pipeline_name status started_at : String)
    (input_summary metadata : Option Value)
    (request_id user_id environment : Option String)
    (payloads : List (String × Value)) : Except String Store := do
  let s ← s.create_run { id := id, pipeline_name := pipeline_name,
                         status := status, started_at := started_at,
                         input_summary := input_summary, metadata := metadata,
                         request_id := request_id, user_id := user_id,
                         environment := environment }
  if payloads.isEmpty then pure s
  else pure (s.create_payloads id Option.none "input" payloads)

/-- `_handle_run_end` from `src/api/routes.py` lines 143-173: update the Run
(raising "Run ... not found" when absent), then store run-level payloads with
`step_id = None` and phase `output`. -/
def handle_run_end (s : Store) (id status ended_at : String)
    (output_summary : Option Value) (error_message : Option String)
    (payloads : List (String × Value)) : Except String Store :=
  match s.end_run id status ended_at output_summary error_message with
  | Option.none => .error ("Run " ++ id ++ " not found")
  | some (_, s) =>
    if payloads.isEmpty then .ok s
    else .ok (s.create_payloads id Option.none "output" payloads)

/-- `_handle_step_start` from `src/api/routes.py` lines 176-208: create the
Step with status "running", then store step payloads with
`step_id = event.id` and phase `input`. -/
def handle_step_start (s : Store) (id run_id step_name step_type : String)
    (index : Nat) (started_at : String) (input_summary : Option Value)
    (input_count : Option Nat) (metadata : Option Value)
    (payloads : List (String × Value)) : Except String Store := do
  let s ← s.create_step { id := id, run_id := run_id, step_name := step_name,
                          step_type := step_type, index := index,
                          started_at := started_at, status := "running",
                          input_summary := input_summary,
                          input_count := input_count, metadata := metadata }
  if payloads.isEmpty then pure s
  else pure (s.create_payloads run_id (some id) "input" payloads)

/-- `_handle_step_end` from `src/api/routes.py` lines 211-245: update the
Step (raising "Step ... not found" when absent), then store step payloads
with `step_id = event.id`, phase `output`, and the run id taken from the
database row rather than the event. -/
def handle_step_end (s : Store) (id run_id status ended_at : String)
    (duration_ms : Option Nat) (output_summary : Option Value)
    (output_count : Option Nat) (reasoning : Option Value)
    (error_message : Option String) (payloads : List (String × Value)) :
    Except String Store :=
  match s.end_step id status ended_at duration_ms output_summary output_count
        reasoning error_message with
  | Option.none => .error ("Step " ++ id ++ " not found")
  | some (row, s) =>
    if payloads.isEmpty then .ok s
    else .ok (s.create_payloads row.run_id (some id) "output" payloads)

/-- `_process_event` from `src/api/routes.py` lines 87-106: dispatch on the
event kind. -/
def process_event (s : Store) : Event → Except String Store
  | .run_start id pn st sa isum md rid uid env ps =>
    handle_run_start s id pn st sa isum md rid uid env ps
  | .run_end id st ea osum em ps => handle_run_end s id st ea osum em ps
  | .step_start id rid sn sty idx sa isum ic md ps =>
    handle_step_start s id rid sn sty idx sa isum ic md ps
  | .step_end id rid st ea dur osum oc rsn em ps =>
    handle_step_end s id rid st ea dur osum oc rsn em ps

/-- Per-event entry of the `/ingest` response (`EventResult` in
`src/api/schemas.py`). -/
structure EventResult where
  id : String
  event_type : String
  success : Bool
  error : Option String := Option.none
deriving DecidableEq, Repr

/-- The `/ingest` response body (`IngestResponse` in `src/api/schemas.py`). -/
structure IngestResponse where
  processed : Nat
  succeeded : Nat
  failed : Nat
  results : List EventResult
deriving DecidableEq, Repr

/-- The per-event try/except loop of `ingest_events`
(`src/api/routes.py` lines 53-77), generic in the handler so that behaviour
under arbitrary handler exceptions can be stated.  A failing event records
`{success: false, error: str(e)}` and processing continues. -/
def ingest_loop {σ : Type} (handle : σ → Event → Except String σ) :
    σ → List Event → σ × List EventResult
  | s, [] => (s, [])
  | s, e :: es =>
    match handle s e with
    | .ok s' =>
      let rest := ingest_loop handle s' es
      (rest.1, ⟨e.eid, e.etype, true, Option.none⟩ :: rest.2)
    | .error msg =>
      let rest := ingest_loop handle s es
      (rest.1, ⟨e.eid, e.etype, false, some msg⟩ :: rest.2)

/-- `ingest_events` from `src/api/routes.py` lines 33-84: run the loop, then
return HTTP 200 with `processed = len(events)`,
`succeeded = #{r : r.success}` and `failed = processed - succeeded`. -/
def ingest_events {σ : Type} (handle : σ → Event → Except String σ)
    (s : σ) (events : List Event) : σ × IngestResponse :=
  let (s', results) := ingest_loop handle s events
  let succeeded := results.countP (fun r => r.success)
  (s', { processed := events.length, succeeded := succeeded,
         failed := events.length - succeeded, results := results })

/-! Helper lemmas shared by several claim theorems. -/

lemma okBind {ε α β : Type} (a : α) (f : α → Except ε β) :
    (Except.ok a >>= f : Except ε β) = f a := rfl

lemma find_first_field_dict_ok (kvs : List (String × Value)) :
    ∀ fields : List String, ∃ r, find_first_field (Value.dict kvs) fields = .ok r := by
  intro fields
  induction fields with
  | nil => exact ⟨Option.none, rfl⟩
  | cons f fs ih =>
    rcases ih with ⟨r, hr⟩
    cases hlk : kvs.lookup f with
    | none =>
      refine ⟨r, ?_⟩
      have h1 : py_contains f (Value.dict kvs) = .ok false := by
        simp [py_contains, hlk]
      unfold find_first_field
      rw [h1, okBind]
      simpa using hr
    | some v =>
      refine ⟨some v, ?_⟩
      have h1 : py_contains f (Value.dict kvs) = .ok true := by
        simp [py_contains, hlk]
      have h2 : py_getitem (Value.dict kvs) f = .ok v := by
        simp [py_getitem, hlk]
      unfold find_first_field
      rw [h1, okBind]
      simp [h2]

lemma extract_candidate_dict_ok (kvs : List (String × Value)) :
    ∃ r, extract_candidate (Value.dict kvs) = .ok r := by
  obtain ⟨i, hi⟩ := find_first_field_dict_ok kvs ID_FIELDS
  obtain ⟨sc, hsc⟩ := find_first_field_dict_ok kvs SCORE_FIELDS
  obtain ⟨re, hre⟩ := find_first_field_dict_ok kvs REASON_FIELDS
  simp only [extract_candidate, hi, hsc, hre, okBind]
  exact ⟨_, rfl⟩

lemma mapM_extract_all_dicts :
    ∀ xs : List Value, (∀ x ∈ xs, ∃ kvs, x = Value.dict kvs) →
    ∃ cs, xs.mapM extract_candidate = .ok cs ∧
      List.Forall₂ (fun x c => extract_candidate x = Except.ok c) xs cs := by
  intro xs
  induction xs with
  | nil => exact fun _ => ⟨[], rfl, List.Forall₂.nil⟩
  | cons x xs ih =>
    intro h
    obtain ⟨kvs, rfl⟩ := h x (by simp)
    obtain ⟨c, hc⟩ := extract_candidate_dict_ok kvs
    obtain ⟨cs, hcs, hall⟩ := ih fun y hy => h y (by simp [hy])
    refine ⟨c :: cs, ?_, List.Forall₂.cons hc hall⟩
    rw [List.mapM_cons, hc, okBind, hcs, okBind]
    rfl

lemma summarize_candidates_ok (xs : List Value) (cs : List (List (String × Value)))
    (h : xs.mapM extract_candidate = .ok cs) :
    summarize_candidates xs = .ok (Value.dict
      [("_type", Value.str "candidates"), ("_count", Value.int xs.length),
       ("_candidates", Value.list (cs.map Value.dict))]) := by
  unfold summarize_candidates
  rw [h, okBind]
  rfl

lemma firstCollectionLen_eq_none (kvs : List (String × Value)) :
    ∀ keys : List String,
      (∀ k ∈ keys, ∀ v, kvs.lookup k = some v → listLen? v = Option.none) →
      firstCollectionLen kvs keys = Option.none := by
  intro keys
  induction keys with
  | nil => exact fun _ => rfl
  | cons k ks ih =>
    intro h
    cases hlk : kvs.lookup k with
    | none => simp [firstCollectionLen, hlk, ih fun k' hk' => h k' (by simp [hk'])]
    | some v =>
      have hv := h k (by simp) v hlk
      simp [firstCollectionLen, hlk, hv, ih fun k' hk' => h k' (by simp [hk'])]

lemma firstCollectionLen_eq_some (kvs : List (String × Value)) :
    ∀ (pre : List String) (k : String) (post : List String) (v : Value) (n : Nat),
      kvs.lookup k = some v → listLen? v = some n →
      (∀ k' ∈ pre, ∀ v', kvs.lookup k' = some v' → listLen? v' = Option.none) →
      firstCollectionLen kvs (pre ++ k :: post) = some n := by
  intro pre
  induction pre with
  | nil =>
    intro k post v n hk hv _
    simp [firstCollectionLen, hk, hv]
  | cons p ps ih =>
    intro k post v n hk hv hpre
    cases hlp : kvs.lookup p with
    | none =>
      simpa [firstCollectionLen, hlp] using
        ih k post v n hk hv fun k' h' => hpre k' (by simp [h'])
    | some w =>
      have hw := hpre p (by simp) w hlp
      simpa [firstCollectionLen, hlp, hw] using
        ih k post v n hk hv fun k' h' => hpre k' (by simp [h'])

lemma ingest_loop_cons_ok {σ : Type} (handle : σ → Event → Except String σ)
    (s s' : σ) (e : Event) (es : List Event) (h : handle s e = .ok s') :
    ingest_loop handle s (e :: es) =
      ((ingest_loop handle s' es).1,
       (⟨e.eid, e.etype, true, Option.none⟩ : EventResult) ::
         (ingest_loop handle s' es).2) := by
  simp only [ingest_loop, h]

lemma ingest_loop_cons_error {σ : Type} (handle : σ → Event → Except String σ)
    (s : σ) (e : Event) (es : List Event) (msg : String)
    (h : handle s e = .error msg) :
    ingest_loop handle s (e :: es) =
      ((ingest_loop handle s es).1,
       (⟨e.eid, e.etype, false, some msg⟩ : EventResult) ::
         (ingest_loop handle s es).2) := by
  simp only [ingest_loop, h]

lemma ingest_loop_results {σ : Type} (handle : σ → Event → Except String σ) :
    ∀ (s : σ) (events : List Event),
      List.Forall₂ (fun e (r : EventResult) => r.id = e.eid ∧ r.event_type = e.etype)
        events (ingest_loop handle s events).2 := by
  intro s events
  induction events generalizing s with
  | nil => exact List.Forall₂.nil
  | cons e es ih =>
    cases h : handle s e with
    | ok s' =>
      rw [ingest_loop_cons_ok handle s s' e es h]
      exact List.Forall₂.cons ⟨rfl, rfl⟩ (ih s')
    | error m =>
      rw [ingest_loop_cons_error handle s e es m h]
      exact List.Forall₂.cons ⟨rfl, rfl⟩ (ih s)

lemma errBind {ε α β : Type} (e : ε) (f : α → Except ε β) :
    (Except.error e >>= f : Except ε β) = Except.error e := rfl

/-- Field access on the ok payload of a summarization result (helper for
stating theorems about individual summary entries). -/
def summaryField (r : Except String Value) (k : String) : Option Value :=
  match r with
  | .ok v => getKey v k
  | .error _ => Option.none

lemma summarize_str_long (s : String) (h : 1024 < s.length) :
    summarize_payload (Value.str s) 0 = .ok (Value.dict
      [("_type", Value.str "str"), ("_length", Value.int s.length),
       ("_value", Value.str (s.take 1024 ++ "...")),
       ("_truncated", Value.bool true)]) := by
  have h1 : ¬ s.length ≤ 1024 := Nat.not_le.mpr h
  simp [summarize_payload, MAX_PAYLOAD_DEPTH, truncate_string,
    MAX_STRING_LENGTH, h, h1]

lemma summarize_str_short (s : String) (h : s.length ≤ 1024) :
    summarize_payload (Value.str s) 0 = .ok (Value.dict
      [("_type", Value.str "str"), ("_length", Value.int s.length),
       ("_value", Value.str s), ("_truncated", Value.bool false)]) := by
  have h1 : ¬ 1024 < s.length := Nat.not_lt.mpr h
  simp [summarize_payload, MAX_PAYLOAD_DEPTH, truncate_string,
    MAX_STRING_LENGTH, h, h1]

/-- Concrete Run row used as a witness fixture. -/
def demoRun : RunRow :=
  { id := "r1", pipeline_name := "p", status := "running", started_at := "t0" }

/-- Concrete Step row used as a witness fixture. -/
def demoStep : StepRow :=
  { id := "s1", run_id := "r1", step_name := "n", step_type := "filter",
    index := 0, started_at := "t0", status := "running" }

/-- Concrete store used as a witness fixture: one run r1 with one step s1. -/
def demoStore : Store := { runs := [demoRun], steps := [demoStep], payloads := [] }

/-! Claim theorems. -/

/-- C3: contrary to the claim, `summarize_payload` can raise.  For
`[{"id": 1}, {"id": 2}, {"id": 3}, None]` candidate detection passes on the
first three elements, and `extract_candidate` then evaluates `"id" in None`,
which raises `TypeError`; `src/sdk/step.py` contains no handler for this and
assigns no `_error` key anywhere, so no input ever yields
`{_type, _error: true}`. -/
theorem summarize_payload_raises_typeerror :
    summarize_payload (Value.list [Value.dict [("id", Value.int 1)],
      Value.dict [("id", Value.int 2)], Value.dict [("id", Value.int 3)],
      Value.none]) 0 =
      .error "TypeError: argument of type 'NoneType' is not iterable" := rfl

/-- C4: `Transport.send` never throws (it is a total function of the
transport state); it returns true exactly when the transport is started and
the queue is not full, in which case the event is appended to the queue, and
it returns false leaving the state unchanged — the event is dropped —
whenever the transport is not started or the queue is full. -/
theorem transport_send_spec (s : TransportState) (e : Value) :
    ((s.send e).1 = true ↔ (s.started = true ∧ s.queueFull = false)) ∧
    ((s.send e).1 = true → (s.send e).2.queue = s.queue ++ [e] ∧
      (s.send e).2.started = s.started ∧ (s.send e).2.maxsize = s.maxsize) ∧
    ((s.send e).1 = false → (s.send e).2 = s) := by
  unfold TransportState.send
  cases hs : s.started <;> cases hf : s.queueFull <;> simp [hs, hf]

/-- Witness for C4 at concrete states: a started transport with room
enqueues the event and a stopped transport drops it unchanged. -/
theorem transport_send_spec_witness :
    (TransportState.send ⟨[], 2, true⟩ (Value.int 7)).2.queue = [Value.int 7] ∧
    (TransportState.send ⟨[], 2, false⟩ (Value.int 7)).2 = ⟨[], 2, false⟩ := by
  constructor
  · have h := (transport_send_spec ⟨[], 2, true⟩ (Value.int 7)).2.1 rfl
    simpa using h.1
  · exact (transport_send_spec ⟨[], 2, false⟩ (Value.int 7)).2.2 rfl

/-- C5 counterexample: with `buffer_size = 2` and the transport not started,
already the first `send` returns false (`src/sdk/transport.py` lines 71-73
drop every event while `_started` is false), contradicting the claimed
true, true, false sequence; all three sends return false. -/
theorem send_unstarted_all_false :
    ((⟨[], 2, false⟩ : TransportState).send (Value.int 1)).1 = false ∧
    ((((⟨[], 2, false⟩ : TransportState).send (Value.int 1)).2).send
      (Value.int 2)).1 = false ∧
    ((((((⟨[], 2, false⟩ : TransportState).send (Value.int 1)).2).send
      (Value.int 2)).2).send (Value.int 3)).1 = false := ⟨rfl, rfl, rfl⟩

/-- C5 amended: with `buffer_size = 2`, three successive sends return
true, true, false once the transport has been started (and before the worker
dequeues anything); with the worker not started, all three return false.
No exception is raised in either case. -/
theorem send_three_with_buffer_two :
    ((TransportState.start ⟨[], 2, false⟩).send (Value.int 1)).1 = true ∧
    ((((TransportState.start ⟨[], 2, false⟩).send (Value.int 1)).2).send
      (Value.int 2)).1 = true ∧
    ((((((TransportState.start ⟨[], 2, false⟩).send (Value.int 1)).2).send
      (Value.int 2)).2).send (Value.int 3)).1 = false ∧
    ((⟨[], 2, false⟩ : TransportState).send (Value.int 1)).1 = false :=
  ⟨rfl, rfl, rfl, rfl⟩

/-- C6 counterexample: `infer_count` does not return null on every input
outside the listed cases — the `hasattr(obj, "__len__")` fallback of
`src/sdk/step.py` lines 48-52 returns the length of any non-str, non-bytes,
non-dict object exposing `__len__`, for example a `range` object of 5
elements. -/
theorem infer_count_len_fallback :
    infer_count (Value.obj "range" Option.none (some 5)) = some 5 := rfl

/-- C6 amended: `infer_count` returns `len(v)` for lists, tuples, sets and
frozensets; for a dict, the length of the value of the first key among
items, results, data, records, candidates whose value is a list or tuple
(null when no key qualifies); null for strings, bytes, None, booleans and
numbers; and for any other object, `len(obj)` when the object has a usable
`__len__` and null otherwise. -/
theorem infer_count_characterization :
    (∀ xs, infer_count (Value.list xs) = some xs.length) ∧
    (∀ xs, infer_count (Value.tuple xs) = some xs.length) ∧
    (∀ xs, infer_count (Value.set xs) = some xs.length) ∧
    (∀ xs, infer_count (Value.frozenset xs) = some xs.length) ∧
    (∀ s, infer_count (Value.str s) = Option.none) ∧
    (∀ n, infer_count (Value.bytes n) = Option.none) ∧
    (infer_count Value.none = Option.none) ∧
    (∀ b, infer_count (Value.bool b) = Option.none) ∧
    (∀ n, infer_count (Value.int n) = Option.none) ∧
    (∀ t, infer_count (Value.float t) = Option.none) ∧
    (∀ tn ia la, infer_count (Value.obj tn ia la) = la) ∧
    (∀ kvs (pre : List String) k post v n, COUNT_KEYS = pre ++ k :: post →
      kvs.lookup k = some v → listLen? v = some n →
      (∀ k' ∈ pre, ∀ v', kvs.lookup k' = some v' → listLen? v' = Option.none) →
      infer_count (Value.dict kvs) = some n) ∧
    (∀ kvs, (∀ k ∈ COUNT_KEYS, ∀ v, kvs.lookup k = some v →
        listLen? v = Option.none) →
      infer_count (Value.dict kvs) = Option.none) := by
  refine ⟨fun _ => rfl, fun _ => rfl, fun _ => rfl, fun _ => rfl, fun _ => rfl,
    fun _ => rfl, rfl, fun _ => rfl, fun _ => rfl, fun _ => rfl,
    fun _ _ _ => rfl, ?_, ?_⟩
  · intro kvs pre k post v n hks hk hv hpre
    show firstCollectionLen kvs COUNT_KEYS = some n
    rw [hks]
    exact firstCollectionLen_eq_some kvs pre k post v n hk hv hpre
  · intro kvs h
    exact firstCollectionLen_eq_none kvs COUNT_KEYS h

/-- Witness for C6 amended: a dict whose "items" value is a string is
skipped in favour of the "results" list, and a dict without any recognized
collection key gives null. -/
theorem infer_count_characterization_witness :
    infer_count (Value.dict [("items", Value.str "abc"),
      ("results", Value.list [Value.int 1])]) = some 1 ∧
    infer_count (Value.dict [("a", Value.int 1)]) = Option.none := by
  constructor
  · refine (infer_count_characterization).2.2.2.2.2.2.2.2.2.2.2.1
      [("items", Value.str "abc"), ("results", Value.list [Value.int 1])]
      ["items"] "results" ["data", "records", "candidates"]
      (Value.list [Value.int 1]) 1 rfl rfl rfl ?_
    intro k' hk' v' hv'
    have hk : k' = "items" := by simpa using hk'
    subst hk
    have hv : some (Value.str "abc") = some v' := hv'
    cases hv
    rfl
  · refine (infer_count_characterization).2.2.2.2.2.2.2.2.2.2.2.2
      [("a", Value.int 1)] ?_
    intro k hk v hv
    fin_cases hk <;> exact Option.noConfusion hv

/-- C7: the claim (with the spec) says the client configuration provides
`batch_size = 100` and `http_timeout = 30.0` and that the transport reads
them; the transport does read `config.batch_size` in its constructor and
`config.http_timeout` in `start`, but the `XRayConfig` dataclass declares
neither attribute — only base_url, api_key, buffer_size = 1000,
flush_interval = 5.0 and default_detail — so both reads fail with
`AttributeError` on any `XRayConfig` instance. -/
theorem transport_reads_undeclared_config_fields :
    "batch_size" ∈ transportInitConfigReads ∧
    "batch_size" ∉ xrayConfigFields ∧
    "http_timeout" ∈ transportStartConfigReads ∧
    "http_timeout" ∉ xrayConfigFields ∧
    ({} : XRayConfig).buffer_size = 1000 ∧
    ({} : XRayConfig).flush_interval = 5 :=
  ⟨by decide, by decide, by decide, by decide, rfl, rfl⟩

/-- C1 counterexample: the list `[{"id": "1"}, {"id": "2"}, {"id": "3"}, 5]`
is a candidate list in the claim's sense (non-empty, first three elements
dicts with a recognized id field), yet `summarize_payload` does not return a
summary map with four extracted entries — `extract_candidate` evaluates
`"id" in 5` on the trailing element and raises `TypeError`. -/
theorem summarize_candidates_trailing_int :
    is_candidate_list (Value.list [Value.dict [("id", Value.str "1")],
      Value.dict [("id", Value.str "2")], Value.dict [("id", Value.str "3")],
      Value.int 5]) = true ∧
    summarize_payload (Value.list [Value.dict [("id", Value.str "1")],
      Value.dict [("id", Value.str "2")], Value.dict [("id", Value.str "3")],
      Value.int 5]) 0 =
      .error "TypeError: argument of type 'int' is not iterable" := ⟨rfl, rfl⟩

/-- C1 amended: for every candidate list L all of whose elements are dicts
(non-empty list or tuple whose first up-to-three elements are dicts with a
recognized id field), `summarize_payload(L)` returns a map with
`_type = "candidates"`, `_count = len(L)` and a `_candidates` array holding
exactly one `extract_candidate` entry per element of L, in order — no
sampling or truncation at any size.  (The unrestricted claim is false:
detection inspects only the first three elements, and a later non-dict
element can make `summarize_payload` raise `TypeError`, as the trailing
integer of the counterexample does.) -/
theorem summarize_candidate_list_complete (xs : List Value) (obj : Value)
    (hobj : obj = Value.list xs ∨ obj = Value.tuple xs)
    (hcand : is_candidate_list obj = true)
    (hdict : ∀ x ∈ xs, ∃ kvs, x = Value.dict kvs) :
    ∃ cs, summarize_payload obj 0 = .ok (Value.dict
        [("_type", Value.str "candidates"),
         ("_count", Value.int xs.length),
         ("_candidates", Value.list (cs.map Value.dict))]) ∧
      cs.length = xs.length ∧
      List.Forall₂ (fun x c => extract_candidate x = Except.ok c) xs cs := by
  obtain ⟨cs, hcs, hall⟩ := mapM_extract_all_dicts xs hdict
  refine ⟨cs, ?_, hall.length_eq.symm, hall⟩
  rcases hobj with rfl | rfl
  · have hred : summarize_payload (Value.list xs) 0 = summarize_candidates xs := by
      simp [summarize_payload, MAX_PAYLOAD_DEPTH, hcand]
    rw [hred]
    exact summarize_candidates_ok xs cs hcs
  · have hred : summarize_payload (Value.tuple xs) 0 = summarize_candidates xs := by
      simp [summarize_payload, MAX_PAYLOAD_DEPTH, hcand]
    rw [hred]
    exact summarize_candidates_ok xs cs hcs

/-- Witness for C1 amended on a concrete two-element candidate list. -/
theorem summarize_candidate_list_complete_witness :
    ∃ cs, summarize_payload (Value.list [Value.dict [("id", Value.str "1"),
        ("score", Value.float 9)], Value.dict [("id", Value.str "2")]]) 0 =
      .ok (Value.dict
        [("_type", Value.str "candidates"),
         ("_count", Value.int 2),
         ("_candidates", Value.list (cs.map Value.dict))]) ∧
      cs.length = 2 ∧
      List.Forall₂ (fun x c => extract_candidate x = Except.ok c)
        [Value.dict [("id", Value.str "1"), ("score", Value.float 9)],
         Value.dict [("id", Value.str "2")]] cs := by
  refine summarize_candidate_list_complete
    [Value.dict [("id", Value.str "1"), ("score", Value.float 9)],
     Value.dict [("id", Value.str "2")]] _ (Or.inl rfl) rfl ?_
  intro x hx
  rcases List.mem_cons.mp hx with rfl | hx
  · exact ⟨_, rfl⟩
  · rcases List.mem_cons.mp hx with rfl | hx
    · exact ⟨_, rfl⟩
    · cases hx

/-- C8 counterexample: for a string s of 1025 characters, the stored
`_value` is not the value truncated to 1024 characters — `_truncate_string`
appends the marker "..." after the first 1024 characters, so `_value` is
`s.take 1024 ++ "..."`, three characters longer than the 1024-character
truncation `s.take 1024`. -/
theorem summarize_long_string_value_length :
    summaryField (summarize_payload
        (Value.str (String.mk (List.replicate 1025 'x'))) 0) "_value" =
      some (Value.str ((String.mk (List.replicate 1025 'x')).take 1024
        ++ "...")) ∧
    ((String.mk (List.replicate 1025 'x')).take 1024 ++ "...").length =
      ((String.mk (List.replicate 1025 'x')).take 1024).length + 3 ∧
    (String.mk (List.replicate 1025 'x')).take 1024 ++ "..." ≠
      (String.mk (List.replicate 1025 'x')).take 1024 := by
  have hlen : 1024 < (String.mk (List.replicate 1025 'x')).length := by decide
  have h := summarize_str_long (String.mk (List.replicate 1025 'x')) hlen
  have h3 : ("..." : String).length = 3 := rfl
  refine ⟨?_, ?_, ?_⟩
  · rw [h]
    rfl
  · rw [String.length_append, h3]
  · intro hEq
    have hc := congrArg String.length hEq
    rw [String.length_append, h3] at hc
    omega

/-- C8 amended: for every string s with more than 1024 characters,
`summarize_payload(s)` returns `_type = "str"`, `_truncated = true`,
`_length = len(s)` and `_value` equal to the first 1024 characters of s
followed by the marker "..."; for at most 1024 characters the value is
returned whole with `_truncated = false`. -/
theorem summarize_string_truncation (s : String) :
    (1024 < s.length →
      summarize_payload (Value.str s) 0 = .ok (Value.dict
        [("_type", Value.str "str"), ("_length", Value.int s.length),
         ("_value", Value.str (s.take 1024 ++ "...")),
         ("_truncated", Value.bool true)])) ∧
    (s.length ≤ 1024 →
      summarize_payload (Value.str s) 0 = .ok (Value.dict
        [("_type", Value.str "str"), ("_length", Value.int s.length),
         ("_value", Value.str s),
         ("_truncated", Value.bool false)])) :=
  ⟨summarize_str_long s, summarize_str_short s⟩

/-- Witness for C8 amended at a 1025-character string and a 2-character
string. -/
theorem summarize_string_truncation_witness :
    summarize_payload (Value.str (String.mk (List.replicate 1025 'x'))) 0 =
      .ok (Value.dict
        [("_type", Value.str "str"),
         ("_length", Value.int (String.mk (List.replicate 1025 'x')).length),
         ("_value", Value.str ((String.mk (List.replicate 1025 'x')).take 1024
           ++ "...")),
         ("_truncated", Value.bool true)]) ∧
    summarize_payload (Value.str "hi") 0 = .ok (Value.dict
      [("_type", Value.str "str"), ("_length", Value.int "hi".length),
       ("_value", Value.str "hi"), ("_truncated", Value.bool false)]) :=
  ⟨(summarize_string_truncation (String.mk (List.replicate 1025 'x'))).1
    (by decide),
   (summarize_string_truncation "hi").2 (by decide)⟩

/-- C2: for every batch and any per-event handler behaviour, `/ingest`
returns (HTTP 200 with) processed = number of events, succeeded = number of
results with success true, failed = processed - succeeded, and exactly one
result per event in the order received (same id and event_type); an event
whose handler raises records {success: false, error: str(err)} and
processing continues with the following events, while a successful handler
records {success: true}. -/
theorem ingest_events_response_spec {σ : Type}
    (handle : σ → Event → Except String σ) (s : σ) (events : List Event) :
    (ingest_events handle s events).2.processed = events.length ∧
    (ingest_events handle s events).2.results.length = events.length ∧
    (ingest_events handle s events).2.succeeded =
      ((ingest_events handle s events).2.results.countP fun r => r.success) ∧
    (ingest_events handle s events).2.succeeded ≤ events.length ∧
    (ingest_events handle s events).2.failed =
      events.length - (ingest_events handle s events).2.succeeded ∧
    List.Forall₂ (fun e (r : EventResult) => r.id = e.eid ∧ r.event_type = e.etype)
      events (ingest_events handle s events).2.results ∧
    (∀ e es msg, handle s e = .error msg →
      (ingest_events handle s (e :: es)).2.results =
        (⟨e.eid, e.etype, false, some msg⟩ : EventResult) ::
          (ingest_events handle s es).2.results) ∧
    (∀ e es s', handle s e = .ok s' →
      (ingest_events handle s (e :: es)).2.results =
        (⟨e.eid, e.etype, true, Option.none⟩ : EventResult) ::
          (ingest_events handle s' es).2.results) := by
  have hres : (ingest_events handle s events).2.results =
      (ingest_loop handle s events).2 := rfl
  have hfa := ingest_loop_results handle s events
  refine ⟨rfl, ?_, rfl, ?_, rfl, ?_, ?_, ?_⟩
  · rw [hres, ← hfa.length_eq]
  · calc (ingest_events handle s events).2.succeeded
        = ((ingest_loop handle s events).2.countP fun r => r.success) := rfl
      _ ≤ (ingest_loop handle s events).2.length := List.countP_le_length _
      _ = events.length := hfa.length_eq.symm
  · rw [hres]; exact hfa
  · intro e es msg h
    show (ingest_loop handle s (e :: es)).2 = _
    rw [ingest_loop_cons_error handle s e es msg h]
    rfl
  · intro e es s' h
    show (ingest_loop handle s (e :: es)).2 = _
    rw [ingest_loop_cons_ok handle s s' e es h]
    rfl

/-- Witness for C2 on a concrete store and batch: a failing run_end for a
missing run is recorded as a failed result with the error string and the
following events are still processed. -/
theorem ingest_events_response_spec_witness :
    (ingest_events process_event ({} : Store)
        [Event.run_end "r1" "success" "t1" Option.none Option.none [],
         Event.run_start "r1" "p" "running" "t0" Option.none Option.none
           Option.none Option.none Option.none []]).2.results =
      (⟨"r1", "run_end", false, some "Run r1 not found"⟩ : EventResult) ::
        (ingest_events process_event ({} : Store)
          [Event.run_start "r1" "p" "running" "t0" Option.none Option.none
            Option.none Option.none Option.none []]).2.results :=
  (ingest_events_response_spec process_event ({} : Store) []).2.2.2.2.2.2.1
    (Event.run_end "r1" "success" "t1" Option.none Option.none [])
    [Event.run_start "r1" "p" "running" "t0" Option.none Option.none
      Option.none Option.none Option.none []]
    "Run r1 not found" rfl

/-- C9: when an ingested event carries `_payloads`, the handlers record one
payload row per entry, with phase "input" for run_start and step_start
events and phase "output" for run_end and step_end events; run-level
payloads (run_start, run_end) are stored with step_id null, step-level
payloads with the step's id, and step_end rows take their run id from the
stored step row. -/
theorem handlers_payload_rows :
    (∀ (s s' : Store) id pn st sa isum md rid uid env ps,
      handle_run_start s id pn st sa isum md rid uid env ps = .ok s' →
      s'.payloads = s.payloads ++
        ps.map fun p => (⟨id, Option.none, "input", p.1, p.2⟩ : PayloadRow)) ∧
    (∀ (s s' : Store) id st ea osum em ps,
      handle_run_end s id st ea osum em ps = .ok s' →
      s'.payloads = s.payloads ++
        ps.map fun p => (⟨id, Option.none, "output", p.1, p.2⟩ : PayloadRow)) ∧
    (∀ (s s' : Store) id rid sn sty idx sa isum ic md ps,
      handle_step_start s id rid sn sty idx sa isum ic md ps = .ok s' →
      s'.payloads = s.payloads ++
        ps.map fun p => (⟨rid, some id, "input", p.1, p.2⟩ : PayloadRow)) ∧
    (∀ (s s' : Store) id rid st ea dur osum oc rsn em ps row s₁,
      s.end_step id st ea dur osum oc rsn em = some (row, s₁) →
      handle_step_end s id rid st ea dur osum oc rsn em ps = .ok s' →
      s'.payloads = s.payloads ++
        ps.map fun p => (⟨row.run_id, some id, "output", p.1, p.2⟩ : PayloadRow)) := by
  refine ⟨?_, ?_, ?_, ?_⟩
  · intro s s' id pn st sa isum md rid uid env ps h
    by_cases hdup : s.runs.any fun r => r.id == id
    · exfalso
      simp [handle_run_start, Store.create_run, hdup, errBind] at h
    · simp [handle_run_start, Store.create_run, hdup, okBind] at h
      by_cases hps : ps.isEmpty
      · rw [if_pos hps] at h
        obtain rfl := List.isEmpty_iff.mp hps
        injection h with h
        subst h
        simp
      · rw [if_neg hps] at h
        injection h with h
        subst h
        simp [Store.create_payloads]
  · intro s s' id st ea osum em ps h
    cases hfind : s.runs.find? fun r => r.id == id with
    | none =>
      exfalso
      simp [handle_run_end, Store.end_run, hfind] at h
    | some row =>
      simp [handle_run_end, Store.end_run, hfind] at h
      by_cases hps : ps.isEmpty
      · rw [if_pos hps] at h
        obtain rfl := List.isEmpty_iff.mp hps
        injection h with h
        subst h
        simp
      · rw [if_neg hps] at h
        injection h with h
        subst h
        simp [Store.create_payloads]
  · intro s s' id rid sn sty idx sa isum ic md ps h
    by_cases hfk : s.runs.any fun r => r.id == rid
    · by_cases hdup : s.steps.any fun t => t.id == id
      · exfalso
        simp [handle_step_start, Store.create_step, hfk, hdup, errBind] at h
      · simp [handle_step_start, Store.create_step, hfk, hdup, okBind] at h
        by_cases hps : ps.isEmpty
        · rw [if_pos hps] at h
          obtain rfl := List.isEmpty_iff.mp hps
          injection h with h
          subst h
          simp
        · rw [if_neg hps] at h
          injection h with h
          subst h
          simp [Store.create_payloads]
    · exfalso
      simp [handle_step_start, Store.create_step, hfk, errBind] at h
  · intro s s' id rid st ea dur osum oc rsn em ps row s₁ hend h
    have hpay : s₁.payloads = s.payloads := by
      cases hfind : s.steps.find? fun t => t.id == id with
      | none => simp [Store.end_step, hfind] at hend
      | some row0 =>
        simp [Store.end_step, hfind] at hend
        rw [← hend.2]
    rw [handle_step_end, hend] at h
    have h' : (if ps.isEmpty = true then Except.ok s₁
        else Except.ok (s₁.create_payloads row.run_id (some id) "output" ps)) =
        Except.ok s' := h
    clear h
    by_cases hps : ps.isEmpty
    · rw [if_pos hps] at h'
      obtain rfl := List.isEmpty_iff.mp hps
      injection h' with h'
      subst h'
      simp [hpay]
    · rw [if_neg hps] at h'
      injection h' with h'
      subst h'
      simp [Store.create_payloads, hpay]

/-- Witness for C9 on the concrete store holding run r1 and step s1: each of
the four handlers records its payload with the claimed phase and scope; the
step_end payload row carries run id r1 from the stored step even though the
event supplies a different run id. -/
theorem handlers_payload_rows_witness :
    (∃ s', handle_run_start demoStore "r2" "p" "running" "t0" Option.none
        Option.none Option.none Option.none Option.none
        [("a", Value.int 1)] = .ok s' ∧
      s'.payloads = demoStore.payloads ++
        [(⟨"r2", Option.none, "input", "a", Value.int 1⟩ : PayloadRow)]) ∧
    (∃ s', handle_run_end demoStore "r1" "success" "t1" Option.none
        Option.none [("b", Value.int 2)] = .ok s' ∧
      s'.payloads = demoStore.payloads ++
        [(⟨"r1", Option.none, "output", "b", Value.int 2⟩ : PayloadRow)]) ∧
    (∃ s', handle_step_start demoStore "s2" "r1" "m" "rank" 1 "t1"
        Option.none Option.none Option.none [("c", Value.int 3)] = .ok s' ∧
      s'.payloads = demoStore.payloads ++
        [(⟨"r1", some "s2", "input", "c", Value.int 3⟩ : PayloadRow)]) ∧
    (∃ s', handle_step_end demoStore "s1" "bogus" "success" "t1" Option.none
        Option.none Option.none Option.none Option.none
        [("d", Value.int 4)] = .ok s' ∧
      s'.payloads = demoStore.payloads ++
        [(⟨"r1", some "s1", "output", "d", Value.int 4⟩ : PayloadRow)]) := by
  refine ⟨⟨_, rfl, ?_⟩, ⟨_, rfl, ?_⟩, ⟨_, rfl, ?_⟩, ⟨_, rfl, ?_⟩⟩
  · exact (handlers_payload_rows).1 demoStore _ "r2" "p" "running" "t0"
      Option.none Option.none Option.none Option.none Option.none
      [("a", Value.int 1)] rfl
  · exact (handlers_payload_rows).2.1 demoStore _ "r1" "success" "t1"
      Option.none Option.none [("b", Value.int 2)] rfl
  · exact (handlers_payload_rows).2.2.1 demoStore _ "s2" "r1" "m" "rank" 1
      "t1" Option.none Option.none Option.none [("c", Value.int 3)] rfl
  · exact (handlers_payload_rows).2.2.2 demoStore _ "s1" "bogus" "success"
      "t1" Option.none Option.none Option.none Option.none Option.none
      [("d", Value.int 4)] _ _ rfl rfl

lemma find_first_field_dict_none (kvs : List (String × Value)) :
    ∀ fields : List String, (∀ f ∈ fields, kvs.lookup f = Option.none) →
      find_first_field (Value.dict kvs) fields = .ok Option.none := by
  intro fields
  induction fields with
  | nil => exact fun _ => rfl
  | cons f fs ih =>
    intro h
    have h1 : py_contains f (Value.dict kvs) = .ok false := by
      simp [py_contains, h f (by simp)]
    unfold find_first_field
    rw [h1, okBind]
    simpa using ih fun g hg => h g (by simp [hg])

lemma extract_candidate_ok_parts (item : Value) (r : List (String × Value))
    (h : extract_candidate item = .ok r) :
    ∃ idv scorev reasonv,
      find_first_field item ID_FIELDS = .ok idv ∧
      find_first_field item SCORE_FIELDS = .ok scorev ∧
      find_first_field item REASON_FIELDS = .ok reasonv ∧
      r = ((match idv with | some v => [("id", v)] | Option.none => []) ++
           (match scorev with | some v => [("score", v)] | Option.none => [])) ++
          [("reason", reasonv.getD Value.none)] := by
  cases hid : find_first_field item ID_FIELDS with
  | error m =>
    unfold extract_candidate at h
    rw [hid, errBind] at h
    exact Except.noConfusion h
  | ok idv =>
    cases hsc : find_first_field item SCORE_FIELDS with
    | error m =>
      unfold extract_candidate at h
      rw [hid, okBind, hsc, errBind] at h
      exact Except.noConfusion h
    | ok scorev =>
      cases hre : find_first_field item REASON_FIELDS with
      | error m =>
        unfold extract_candidate at h
        rw [hid, okBind, hsc, okBind, hre, errBind] at h
        exact Except.noConfusion h
      | ok reasonv =>
        unfold extract_candidate at h
        rw [hid, okBind, hsc, okBind, hre, okBind] at h
        injection h with h
        exact ⟨idv, scorev, reasonv, rfl, rfl, rfl, h.symm⟩

/-- C10 counterexample: a later element that is a dict without any
recognized id field need not yield an entry with reason = null — if the
dict carries a recognized reason field, its value is extracted:
`extract_candidate({"reason": "because"})` has reason "because", which is
not null. -/
theorem extract_reason_not_null :
    extract_candidate (Value.dict [("reason", Value.str "because")]) =
      .ok [("reason", Value.str "because")] ∧
    Value.str "because" ≠ Value.none :=
  ⟨rfl, fun h => Value.noConfusion h⟩

lemma find_first_field_dict_first (kvs : List (String × Value)) :
    ∀ (pre : List String) (f : String) (post : List String) (v : Value),
      kvs.lookup f = some v →
      (∀ g ∈ pre, kvs.lookup g = Option.none) →
      find_first_field (Value.dict kvs) (pre ++ f :: post) = .ok (some v) := by
  intro pre
  induction pre with
  | nil =>
    intro f post v hf _
    have h1 : py_contains f (Value.dict kvs) = .ok true := by
      simp [py_contains, hf]
    have h2 : py_getitem (Value.dict kvs) f = .ok v := by
      simp [py_getitem, hf]
    show find_first_field (Value.dict kvs) (f :: post) = _
    unfold find_first_field
    rw [h1, okBind]
    simp [h2]
  | cons p ps ih =>
    intro f post v hf hpre
    have h1 : py_contains p (Value.dict kvs) = .ok false := by
      simp [py_contains, hpre p (by simp)]
    show find_first_field (Value.dict kvs) (p :: (ps ++ f :: post)) = _
    unfold find_first_field
    rw [h1, okBind]
    simpa using ih f post v hf fun g hg => hpre g (by simp [hg])

/-- C10 amended: candidate-list detection inspects only the first
min(3, len) elements of a list or tuple (sequences agreeing there and on
emptiness are classified alike, and a list and a tuple of the same elements
are classified alike); if a sequence of dicts passes detection,
`extract_candidate` is applied to every element in order, including later
dicts without any recognized id field; such elements yield an entry with no
id key whose reason is null when the dict also has no recognized reason
field, and otherwise the first-found reason field's value; and every
extracted entry contains no keys other than id, score and reason. -/
theorem candidate_detection_and_extraction :
    (∀ xs ys : List Value, xs.take 3 = ys.take 3 → xs.isEmpty = ys.isEmpty →
      is_candidate_list (Value.list xs) = is_candidate_list (Value.list ys) ∧
      is_candidate_list (Value.tuple xs) = is_candidate_list (Value.tuple ys)) ∧
    (∀ xs : List Value,
      is_candidate_list (Value.list xs) = is_candidate_list (Value.tuple xs)) ∧
    (∀ item r, extract_candidate item = .ok r →
      ∀ kv ∈ r, kv.1 ∈ (["id", "score", "reason"] : List String)) ∧
    (∀ kvs : List (String × Value),
      (∀ f ∈ ID_FIELDS, kvs.lookup f = Option.none) →
      ∃ r, extract_candidate (Value.dict kvs) = .ok r ∧
        r.lookup "id" = Option.none ∧
        ((∀ f ∈ REASON_FIELDS, kvs.lookup f = Option.none) →
          r.lookup "reason" = some Value.none)) ∧
    (∀ (kvs : List (String × Value)) (pre : List String) (f : String)
        (post : List String) (v : Value),
      (∀ g ∈ ID_FIELDS, kvs.lookup g = Option.none) →
      REASON_FIELDS = pre ++ f :: post →
      kvs.lookup f = some v →
      (∀ g ∈ pre, kvs.lookup g = Option.none) →
      ∃ r, extract_candidate (Value.dict kvs) = .ok r ∧
        r.lookup "reason" = some v) ∧
    (∀ (xs : List Value) (obj : Value),
      (obj = Value.list xs ∨ obj = Value.tuple xs) →
      is_candidate_list obj = true →
      (∀ x ∈ xs, ∃ kvs, x = Value.dict kvs) →
      ∃ cs, summarize_payload obj 0 = .ok (Value.dict
          [("_type", Value.str "candidates"), ("_count", Value.int xs.length),
           ("_candidates", Value.list (cs.map Value.dict))]) ∧
        List.Forall₂ (fun x c => extract_candidate x = Except.ok c) xs cs) := by
  refine ⟨?_, ?_, ?_, ?_, ?_, ?_⟩
  · intro xs ys ht he
    constructor
    · show (!xs.isEmpty && (xs.take 3).all isCandidateDict) = _
      rw [ht, he]
      rfl
    · show (!xs.isEmpty && (xs.take 3).all isCandidateDict) = _
      rw [ht, he]
      rfl
  · intro xs
    rfl
  · intro item r h kv hkv
    obtain ⟨idv, scorev, reasonv, _, _, _, rfl⟩ :=
      extract_candidate_ok_parts item r h
    rcases List.mem_append.mp hkv with h1 | h1
    · rcases List.mem_append.mp h1 with h2 | h2
      · cases idv with
        | none => cases h2
        | some v =>
          have hv : kv = ("id", v) := by simpa using h2
          subst hv
          simp
      · cases scorev with
        | none => cases h2
        | some v =>
          have hv : kv = ("score", v) := by simpa using h2
          subst hv
          simp
    · have hv : kv = ("reason", reasonv.getD Value.none) := by simpa using h1
      subst hv
      simp
  · intro kvs hids
    have hid := find_first_field_dict_none kvs ID_FIELDS hids
    obtain ⟨sc, hsc⟩ := find_first_field_dict_ok kvs SCORE_FIELDS
    obtain ⟨re, hre⟩ := find_first_field_dict_ok kvs REASON_FIELDS
    cases sc with
    | none =>
      refine ⟨[("reason", re.getD Value.none)], ?_, rfl, ?_⟩
      · unfold extract_candidate
        rw [hid, okBind, hsc, okBind, hre, okBind]
        rfl
      · intro hrs
        have hre2 := find_first_field_dict_none kvs REASON_FIELDS hrs
        rw [hre2] at hre
        injection hre with hre
        subst hre
        rfl
    | some v =>
      refine ⟨[("score", v), ("reason", re.getD Value.none)], ?_, rfl, ?_⟩
      · unfold extract_candidate
        rw [hid, okBind, hsc, okBind, hre, okBind]
        rfl
      · intro hrs
        have hre2 := find_first_field_dict_none kvs REASON_FIELDS hrs
        rw [hre2] at hre
        injection hre with hre
        subst hre
        rfl
  · intro kvs pre f post v hids hsplit hf hpre
    have hid := find_first_field_dict_none kvs ID_FIELDS hids
    obtain ⟨sc, hsc⟩ := find_first_field_dict_ok kvs SCORE_FIELDS
    have hre : find_first_field (Value.dict kvs) REASON_FIELDS = .ok (some v) := by
      rw [hsplit]
      exact find_first_field_dict_first kvs pre f post v hf hpre
    cases sc with
    | none =>
      refine ⟨[("reason", v)], ?_, rfl⟩
      unfold extract_candidate
      rw [hid, okBind, hsc, okBind, hre, okBind]
      rfl
    | some w =>
      refine ⟨[("score", w), ("reason", v)], ?_, rfl⟩
      unfold extract_candidate
      rw [hid, okBind, hsc, okBind, hre, okBind]
      rfl
  · intro xs obj hobj hcand hdict
    obtain ⟨cs, hcs, hall⟩ := mapM_extract_all_dicts xs hdict
    refine ⟨cs, ?_, hall⟩
    rcases hobj with rfl | rfl
    · have hred : summarize_payload (Value.list xs) 0 = summarize_candidates xs := by
        simp [summarize_payload, MAX_PAYLOAD_DEPTH, hcand]
      rw [hred]
      exact summarize_candidates_ok xs cs hcs
    · have hred : summarize_payload (Value.tuple xs) 0 = summarize_candidates xs := by
        simp [summarize_payload, MAX_PAYLOAD_DEPTH, hcand]
      rw [hred]
      exact summarize_candidates_ok xs cs hcs

/-- Witness for C10 amended: an id-less, reason-less dict yields an entry
with no id key and reason null; an id-less dict whose first-found reason
field is "explanation" has that value as its reason; and both lists and
tuples agreeing on their first three elements are classified alike
regardless of a trailing non-dict element. -/
theorem candidate_detection_and_extraction_witness :
    (∃ r, extract_candidate (Value.dict [("name", Value.str "a")]) = .ok r ∧
      r.lookup "id" = Option.none ∧
      ((∀ f ∈ REASON_FIELDS,
          (([("name", Value.str "a")] : List (String × Value)).lookup f
            = Option.none)) →
        r.lookup "reason" = some Value.none)) ∧
    (∃ r, extract_candidate (Value.dict [("explanation", Value.str "why")]) =
        .ok r ∧
      r.lookup "reason" = some (Value.str "why")) ∧
    is_candidate_list (Value.list [Value.dict [("id", Value.int 1)],
      Value.dict [("id", Value.int 2)], Value.dict [("id", Value.int 3)],
      Value.int 5]) =
    is_candidate_list (Value.list [Value.dict [("id", Value.int 1)],
      Value.dict [("id", Value.int 2)], Value.dict [("id", Value.int 3)]]) ∧
    is_candidate_list (Value.tuple [Value.dict [("id", Value.int 1)],
      Value.dict [("id", Value.int 2)], Value.dict [("id", Value.int 3)],
      Value.int 5]) =
    is_candidate_list (Value.tuple [Value.dict [("id", Value.int 1)],
      Value.dict [("id", Value.int 2)], Value.dict [("id", Value.int 3)]]) := by
  refine ⟨?_, ?_, ?_, ?_⟩
  · refine (candidate_detection_and_extraction).2.2.2.1
      [("name", Value.str "a")] ?_
    intro f hf
    fin_cases hf <;> rfl
  · refine (candidate_detection_and_extraction).2.2.2.2.1
      [("explanation", Value.str "why")] ["reason"] "explanation"
      ["rationale", "why", "filter_reason"] (Value.str "why") ?_ rfl rfl ?_
    · intro g hg
      fin_cases hg <;> rfl
    · intro g hg
      fin_cases hg
      rfl
  · exact ((candidate_detection_and_extraction).1
      [Value.dict [("id", Value.int 1)], Value.dict [("id", Value.int 2)],
       Value.dict [("id", Value.int 3)], Value.int 5]
      [Value.dict [("id", Value.int 1)], Value.dict [("id", Value.int 2)],
       Value.dict [("id", Value.int 3)]] rfl rfl).1
  · exact ((candidate_detection_and_extraction).1
      [Value.dict [("id", Value.int 1)], Value.dict [("id", Value.int 2)],
       Value.dict [("id", Value.int 3)], Value.int 5]
      [Value.dict [("id", Value.int 1)], Value.dict [("id", Value.int 2)],
       Value.dict [("id", Value.int 3)]] rfl rfl).2

end XRay
